import Mathlib

/-!
Verification of the file-sharing authorization test harness.

Shallow embedding of:
* `policy_model.py`  — `AuthorizationPolicy.evaluate`, `generate_all_scenarios`
* `test_framework.py` — `execute_api_action`, `test_scenario`, `analyze_results`,
  the share-dispatch of the oracle
* `api_client.py`    — `check_authorization` response handling
* `CSI-524_Project/file_sharing_api.py` — the subject's state and
  `_check_authorization`, `get_file`, `update_file`, `delete_file`, `share_file`

Enumerated values (audience, visibility, action, decisions) are embedded as
`String`, exactly as the Python code passes them around, so out-of-enumeration
inputs are expressible.
-/

namespace PolicyModel

/-- `AuthorizationPolicy.evaluate` (policy_model.py lines 17-68), translated
branch by branch.  Rule 1 in the source is `if is_owner or audience == 'owner'`;
rules 5 and 6 both return DENY, and rule 7 is the default deny. -/
def evaluate (audience visibility action : String)
    (is_owner has_collaboration_permission same_org : Bool) : String :=
  if is_owner = true ∨ audience = "owner" then "ALLOW"
  else if visibility = "public" then
    if action = "read" then "ALLOW" else "DENY"
  else if visibility = "org_public" then
    if same_org = true ∧ action = "read" then "ALLOW" else "DENY"
  else if has_collaboration_permission = true then
    if action = "read" ∨ action = "edit" then "ALLOW" else "DENY"
  else if visibility = "shared" then "DENY"
  else if visibility = "private" then "DENY"
  else "DENY"

/-- Modelled from the spec: the five-rule first-match priority chain of §4.1
(rule 1 keyed on the `is_owner` boolean alone), used to compare `evaluate`
against the specified chain. -/
def specChain (resourceClass action : String)
    (is_owner has_collaboration_permission same_org : Bool) : String :=
  if is_owner = true then "ALLOW"
  else if resourceClass = "public" then
    if action = "read" then "ALLOW" else "DENY"
  else if resourceClass = "org_public" then
    if same_org = true ∧ action = "read" then "ALLOW" else "DENY"
  else if has_collaboration_permission = true then
    if action = "read" ∨ action = "edit" then "ALLOW" else "DENY"
  else "DENY"

/-- A record emitted by `AuthorizationPolicy.generate_all_scenarios`
(policy_model.py lines 158-167): the scenario dictionary's fields. -/
structure Scenario where
  scenario_id : Nat
  audience : String
  visibility : String
  action : String
  is_owner : Bool
  has_collaboration : Bool
  same_org : Bool
  expected_result : String
deriving DecidableEq, Repr

/-- The audience enumeration, in the order iterated by the generator
(policy_model.py line 135). -/
def audiences : List String := ["owner", "collaborator", "org_member", "external"]

/-- The visibility enumeration, in the order iterated by the generator
(policy_model.py line 136). -/
def visibilities : List String := ["private", "shared", "org_public", "public"]

/-- The action enumeration, in the order iterated by the generator
(policy_model.py line 137). -/
def actions : List String := ["read", "edit", "delete", "share"]

/-- The body of the generator loop (policy_model.py lines 143-167): derive the
three context booleans from the audience, evaluate the policy, and build the
scenario record. -/
def mkScenario (id : Nat) (audience visibility action : String) : Scenario :=
  let is_owner := audience == "owner"
  let has_collab := audience == "collaborator"
  let same_org := audience == "owner" || audience == "org_member"
  { scenario_id := id
    audience := audience
    visibility := visibility
    action := action
    is_owner := is_owner
    has_collaboration := has_collab
    same_org := same_org
    expected_result := evaluate audience visibility action is_owner has_collab same_org }

/-- The cross-product of the three enumerations in the nesting order of the
generator's loops: audience outermost, then visibility, then action. -/
def allTriples : List (String × String × String) :=
  audiences.flatMap fun a =>
    visibilities.flatMap fun v =>
      actions.map fun act => (a, v, act)

/-- `AuthorizationPolicy.generate_all_scenarios` (policy_model.py lines
128-170).  The source threads a counter `scenario_id` starting at 1 and
incremented once per emitted scenario; since each loop iteration emits exactly
one scenario, the counter equals the iteration index plus one. -/
def generate_all_scenarios : List Scenario :=
  allTriples.enum.map fun p => mkScenario (p.1 + 1) p.2.1 p.2.2.1 p.2.2.2

/-- Claim C1, counterexample: at audience `owner` with every boolean false,
`evaluate` answers ALLOW (its rule 1 also matches on the audience string) while
the five-rule chain of the spec answers DENY at its rule 5, so `evaluate` does
not implement the five-rule chain at this input. -/
theorem evaluate_owner_audience_diverges_from_specChain :
    evaluate "owner" "private" "delete" false false false = "ALLOW" ∧
    specChain "private" "delete" false false false = "DENY" ∧
    evaluate "owner" "private" "delete" false false false ≠
      specChain "private" "delete" false false false := by
  decide

/-- Claim C1, amended: for every audience other than `owner`, `evaluate` agrees
with the spec's five-rule first-match chain at every resourceClass, action and
boolean combination; when the audience is `owner`, rule 1 additionally fires on
the audience string itself. -/
theorem evaluate_refines_specChain_off_owner (a v act : String) (o c s : Bool)
    (h : a ≠ "owner") :
    evaluate a v act o c s = specChain v act o c s := by
  unfold evaluate specChain
  simp only [h, or_false]
  split_ifs <;> rfl

/-- Claim C1, witness: the amended theorem applied at a concrete non-owner
input. -/
theorem evaluate_refines_specChain_off_owner_witness :
    evaluate "external" "public" "edit" false false false =
      specChain "public" "edit" false false false :=
  evaluate_refines_specChain_off_owner "external" "public" "edit" false false false
    (by decide)

/-- Claim C2: `generate_all_scenarios` returns exactly 64 scenarios; the
emitted (audience, visibility, action) triples are exactly the duplicate-free
cross-product of the three enumerations; every scenario carries the booleans
derived from its audience and an expected decision equal to `evaluate` on its
own inputs. -/
theorem generate_all_scenarios_complete :
    generate_all_scenarios.length = 64 ∧
    generate_all_scenarios.map (fun s => (s.audience, s.visibility, s.action)) =
      allTriples ∧
    allTriples.Nodup ∧
    ∀ s ∈ generate_all_scenarios,
      s.is_owner = (s.audience == "owner") ∧
      s.has_collaboration = (s.audience == "collaborator") ∧
      s.same_org = (s.audience == "owner" || s.audience == "org_member") ∧
      s.expected_result =
        evaluate s.audience s.visibility s.action s.is_owner s.has_collaboration
          s.same_org :=
  ⟨by rfl, by rfl, by decide, by decide⟩

/-- Claim C2, witness: the per-scenario conjunct applied to the first emitted
scenario. -/
theorem generate_all_scenarios_complete_witness :
    (mkScenario 1 "owner" "private" "read").is_owner =
      ((mkScenario 1 "owner" "private" "read").audience == "owner") ∧
    (mkScenario 1 "owner" "private" "read").has_collaboration =
      ((mkScenario 1 "owner" "private" "read").audience == "collaborator") ∧
    (mkScenario 1 "owner" "private" "read").same_org =
      ((mkScenario 1 "owner" "private" "read").audience == "owner" ||
        (mkScenario 1 "owner" "private" "read").audience == "org_member") ∧
    (mkScenario 1 "owner" "private" "read").expected_result =
      evaluate (mkScenario 1 "owner" "private" "read").audience
        (mkScenario 1 "owner" "private" "read").visibility
        (mkScenario 1 "owner" "private" "read").action
        (mkScenario 1 "owner" "private" "read").is_owner
        (mkScenario 1 "owner" "private" "read").has_collaboration
        (mkScenario 1 "owner" "private" "read").same_org :=
  generate_all_scenarios_complete.2.2.2 (mkScenario 1 "owner" "private" "read")
    (by decide)

/-- Claim C5: scenario generation is deterministic — any two lists produced by
`generate_all_scenarios` (a pure function of no mutable state, clock or
randomness in the source) are identical, with the same scenario IDs and the
same expected decisions position by position. -/
theorem generate_all_scenarios_deterministic (l₁ l₂ : List Scenario)
    (h₁ : l₁ = generate_all_scenarios) (h₂ : l₂ = generate_all_scenarios) :
    l₁ = l₂ ∧
    l₁.map Scenario.scenario_id = l₂.map Scenario.scenario_id ∧
    l₁.map Scenario.expected_result = l₂.map Scenario.expected_result := by
  subst h₁; subst h₂; exact ⟨rfl, rfl, rfl⟩

/-- Claim C5, witness: the determinism theorem applied to two calls of the
generator. -/
theorem generate_all_scenarios_deterministic_witness :
    generate_all_scenarios = generate_all_scenarios ∧
    generate_all_scenarios.map Scenario.scenario_id =
      generate_all_scenarios.map Scenario.scenario_id ∧
    generate_all_scenarios.map Scenario.expected_result =
      generate_all_scenarios.map Scenario.expected_result :=
  generate_all_scenarios_deterministic generate_all_scenarios generate_all_scenarios
    rfl rfl

/-- Claim C7, counterexample: with `is_owner = true` the owner rule fires
first, so `evaluate` with `has_collaboration_permission = true` and action
`delete` answers ALLOW, not DENY — the claim's quantification over every value
of the other evaluator inputs fails. -/
theorem collaborator_ceiling_fails_with_owner_flag :
    ¬ evaluate "collaborator" "private" "delete" true true false = "DENY" := by
  decide

/-- Claim C7, amended: for every audience other than `owner` and with
`is_owner = false`, `evaluate` with `has_collaboration_permission = true`
returns DENY on action `delete` and on action `share`, for every resourceClass
and every value of `same_org`. -/
theorem collaborator_ceiling_for_nonowner (a v act : String) (s : Bool)
    (ha : a ≠ "owner") (hact : act = "delete" ∨ act = "share") :
    evaluate a v act false true s = "DENY" := by
  unfold evaluate
  rcases hact with h | h <;> subst h <;> simp [ha]

/-- Claim C7, witness: the amended ceiling applied at a concrete collaborator
delete scenario. -/
theorem collaborator_ceiling_for_nonowner_witness :
    evaluate "collaborator" "shared" "delete" false true false = "DENY" :=
  collaborator_ceiling_for_nonowner "collaborator" "shared" "delete" false
    (by decide) (Or.inl rfl)

/-- Claim C9: whenever the audience argument is the string `owner`, `evaluate`
returns ALLOW for every visibility, action and boolean combination — rule 1 in
the source matches `is_owner or audience == 'owner'`. -/
theorem evaluate_owner_audience_always_allows (v act : String) (o c s : Bool) :
    evaluate "owner" v act o c s = "ALLOW" := by
  unfold evaluate
  simp

/-- Claim C9, witness: the owner-audience theorem at a concrete input with
`is_owner = false`. -/
theorem evaluate_owner_audience_always_allows_witness :
    evaluate "owner" "private" "delete" false false false = "ALLOW" :=
  evaluate_owner_audience_always_allows "private" "delete" false false false

/-- Claim C10: `evaluate` is total over arbitrary string inputs — every input,
including values outside the declared enumerations, yields either ALLOW or
DENY; and any input matched by no earlier rule (owner flags false, audience not
`owner`, visibility neither `public` nor `org_public`, no collaboration
permission) falls through to DENY. -/
theorem evaluate_total_two_valued_default_deny (a v act : String) (o c s : Bool) :
    (evaluate a v act o c s = "ALLOW" ∨ evaluate a v act o c s = "DENY") ∧
    (o = false → a ≠ "owner" → v ≠ "public" → v ≠ "org_public" → c = false →
      evaluate a v act o c s = "DENY") := by
  constructor
  · unfold evaluate
    split_ifs <;> simp
  · intro ho ha hv1 hv2 hc
    subst ho; subst hc
    unfold evaluate
    simp [ha, hv1, hv2]

/-- Claim C10, witness: the totality theorem applied at an input entirely
outside the declared enumerations. -/
theorem evaluate_total_two_valued_default_deny_witness :
    (evaluate "ghost" "mystery" "peek" false false true = "ALLOW" ∨
      evaluate "ghost" "mystery" "peek" false false true = "DENY") ∧
    evaluate "ghost" "mystery" "peek" false false true = "DENY" :=
  ⟨(evaluate_total_two_valued_default_deny "ghost" "mystery" "peek" false false true).1,
    (evaluate_total_two_valued_default_deny "ghost" "mystery" "peek" false false true).2
      rfl (by decide) (by decide) (by decide) rfl⟩

end PolicyModel

namespace TestFramework

open PolicyModel

/-- `ApiClient.check_authorization` (api_client.py lines 80-89), abstracted
over the HTTP reply to the POST on `/authorize`: `none` models a body that
fails to parse as JSON (the `except` path), `some none` a JSON body without an
`allowed` key (`body.get('allowed', False)`), and `some (some b)` a body
carrying `allowed = b`.  Every fault path returns `false`. -/
def check_authorization (reply : Option (Option Bool)) : Bool :=
  match reply with
  | none => false
  | some none => false
  | some (some b) => b

/-- The status code of the HTTP response the subject returns for a read, edit
or share request. -/
structure HttpResponse where
  status_code : Nat
deriving DecidableEq, Repr

/-- `AuthorizationTestFramework.execute_api_action` (test_framework.py lines
124-160), abstracted over the subject's transport behavior: `resp` is the HTTP
response received for the read/edit/share dispatch, `authReply` the `/authorize`
body used by the delete dispatch.  Status 200 or 201 maps to ALLOW, 403 to
DENY, any other status to ERROR; an action outside the vocabulary leaves
`response = None` and yields ERROR; the delete branch returns ALLOW or DENY
from the boolean `check_authorization`. -/
def execute_api_action (action : String) (resp : HttpResponse)
    (authReply : Option (Option Bool)) : String :=
  if action = "read" ∨ action = "edit" ∨ action = "share" then
    if resp.status_code = 200 ∨ resp.status_code = 201 then "ALLOW"
    else if resp.status_code = 403 then "DENY"
    else "ERROR"
  else if action = "delete" then
    if check_authorization authReply then "ALLOW" else "DENY"
  else "ERROR"

/-- Claim C3, counterexample: for the delete action, a faulty `/authorize`
reply (here a JSON body without an `allowed` key, as the server's 400 and 500
replies are) is folded by `check_authorization` into `false` and observed as
DENY, not ERROR. -/
theorem delete_fault_normalized_to_deny :
    execute_api_action "delete" ⟨400⟩ (some none) = "DENY" ∧
    ("DENY" : String) ≠ "ERROR" := by
  decide

/-- Claim C3, amended: for the read, edit and share actions an unexpected
status (not 200, 201 or 403) is observed as ERROR, which can never equal the
two-valued expectation, so the scenario fails; the delete action, by contrast,
never observes ERROR — its faults are reported as DENY. -/
theorem fault_surfaces_as_error_except_delete (action : String)
    (resp : HttpResponse) (reply : Option (Option Bool)) (expected : String) :
    ((action = "read" ∨ action = "edit" ∨ action = "share") →
      resp.status_code ≠ 200 → resp.status_code ≠ 201 → resp.status_code ≠ 403 →
      (expected = "ALLOW" ∨ expected = "DENY") →
      execute_api_action action resp reply = "ERROR" ∧
        (expected == execute_api_action action resp reply) = false) ∧
    execute_api_action "delete" resp reply ≠ "ERROR" := by
  constructor
  · intro hact h200 h201 h403 hexp
    have hcode : ¬(resp.status_code = 200 ∨ resp.status_code = 201) :=
      fun hc => hc.elim h200 h201
    have he : execute_api_action action resp reply = "ERROR" := by
      unfold execute_api_action
      rw [if_pos hact, if_neg hcode, if_neg h403]
    refine ⟨he, ?_⟩
    rw [he]
    rcases hexp with h | h <;> subst h <;> decide
  · unfold execute_api_action
    have h1 : ¬("delete" = "read" ∨ "delete" = "edit" ∨ "delete" = "share") := by
      decide
    rw [if_neg h1, if_pos rfl]
    cases check_authorization reply <;> decide

/-- Claim C3, witness: a 500 status on a read is observed as ERROR and fails
against an ALLOW expectation, while the delete action at the same transport
state does not observe ERROR. -/
theorem fault_surfaces_as_error_except_delete_witness :
    (execute_api_action "read" ⟨500⟩ (some none) = "ERROR" ∧
      (("ALLOW" : String) == execute_api_action "read" ⟨500⟩ (some none)) = false) ∧
    execute_api_action "delete" ⟨500⟩ (some none) ≠ "ERROR" :=
  ⟨(fault_surfaces_as_error_except_delete "read" ⟨500⟩ (some none) "ALLOW").1
      (Or.inl rfl) (by decide) (by decide) (by decide) (Or.inl rfl),
    (fault_surfaces_as_error_except_delete "read" ⟨500⟩ (some none) "ALLOW").2⟩

/-- `TestResult` (test_framework.py lines 14-28); the timestamp is omitted. -/
structure TestResult where
  scenario : Scenario
  expected : String
  actual : String
  passed : Bool
deriving DecidableEq, Repr

/-- `AuthorizationTestFramework.test_scenario` (test_framework.py lines
162-193), with the observed decision of the HTTP round-trip supplied as the
`actual` parameter: the expectation is the scenario's `expected_result` and
`passed` is their equality. -/
def test_scenario (s : Scenario) (actual : String) : TestResult :=
  { scenario := s
    expected := s.expected_result
    actual := actual
    passed := s.expected_result == actual }

/-- The failure-grouping loops of `analyze_results` (test_framework.py lines
252-268): a dict of lists keyed by `key`, in insertion order — failed results
are appended to their key's list, new keys appended at the end. -/
def groupFailures (key : TestResult → String) (results : List TestResult) :
    List (String × List TestResult) :=
  results.foldl
    (fun acc r =>
      if r.passed then acc
      else if (acc.lookup (key r)).isSome then
        acc.map fun kv => if kv.1 == key r then (kv.1, kv.2 ++ [r]) else kv
      else acc ++ [(key r, [r])])
    []

/-- The record returned by `analyze_results` (test_framework.py lines
270-279); the float `pass_rate` is omitted.  These seven fields are all the
analysis computes — there is no further classification. -/
structure Analysis where
  total : Nat
  passed : Nat
  failed : Nat
  over_permissive : List TestResult
  over_restrictive : List TestResult
  failures_by_audience : List (String × List TestResult)
  failures_by_action : List (String × List TestResult)
deriving DecidableEq, Repr

/-- `AuthorizationTestFramework.analyze_results` (test_framework.py lines
230-279).  The source's append loops over failed results are order-preserving
filters. -/
def analyze_results (results : List TestResult) : Analysis :=
  { total := results.length
    passed := (results.filter fun r => r.passed).length
    failed := results.length - (results.filter fun r => r.passed).length
    over_permissive := results.filter fun r =>
      !r.passed && r.expected == "DENY" && r.actual == "ALLOW"
    over_restrictive := results.filter fun r =>
      !r.passed && r.expected == "ALLOW" && r.actual == "DENY"
    failures_by_audience := groupFailures (fun r => r.scenario.audience) results
    failures_by_action := groupFailures (fun r => r.scenario.action) results }

/-- Claim C4, counterexample: `analyze_results` has no infrastructure
category — its record carries only counts, the two severity buckets and the
audience/action groupings.  Concretely, an ERROR result is reported inside the
same `failures_by_audience` group as an over-permissive policy failure of the
same audience, not apart from the severity reporting. -/
theorem error_result_grouped_with_policy_failures :
    (test_scenario (mkScenario 50 "external" "private" "read") "ERROR").actual =
      "ERROR" ∧
    (analyze_results
        [test_scenario (mkScenario 50 "external" "private" "read") "ERROR",
          test_scenario (mkScenario 54 "external" "shared" "edit") "ALLOW"]).failures_by_audience =
      [("external",
        [test_scenario (mkScenario 50 "external" "private" "read") "ERROR",
          test_scenario (mkScenario 54 "external" "shared" "edit") "ALLOW"])] ∧
    (analyze_results
        [test_scenario (mkScenario 50 "external" "private" "read") "ERROR",
          test_scenario (mkScenario 54 "external" "shared" "edit") "ALLOW"]).over_permissive =
      [test_scenario (mkScenario 54 "external" "shared" "edit") "ALLOW"] := by
  decide

/-- Claim C4, amended: a result observed as ERROR never passes (its
expectation is two-valued), and it is contained in neither severity bucket of
`analyze_results`; but the code has no separate INFRASTRUCTURE classification —
ERROR failures are reported only through the shared audience and action
failure groupings, alongside policy failures. -/
theorem error_results_fail_outside_severity_buckets (s : Scenario)
    (results : List TestResult)
    (h : s.expected_result = "ALLOW" ∨ s.expected_result = "DENY") :
    (test_scenario s "ERROR").passed = false ∧
    (∀ r ∈ (analyze_results results).over_permissive, r.actual ≠ "ERROR") ∧
    (∀ r ∈ (analyze_results results).over_restrictive, r.actual ≠ "ERROR") := by
  refine ⟨?_, ?_, ?_⟩
  · show (s.expected_result == "ERROR") = false
    rcases h with h | h <;> rw [h] <;> decide
  · intro r hr
    simp only [analyze_results, List.mem_filter, Bool.and_eq_true, beq_iff_eq,
      Bool.not_eq_true'] at hr
    rw [hr.2.2]
    decide
  · intro r hr
    simp only [analyze_results, List.mem_filter, Bool.and_eq_true, beq_iff_eq,
      Bool.not_eq_true'] at hr
    rw [hr.2.2]
    decide

/-- Claim C4, witness: the amended theorem at a concrete ERROR result. -/
theorem error_results_fail_outside_severity_buckets_witness :
    (test_scenario (mkScenario 2 "owner" "private" "edit") "ERROR").passed = false ∧
    (∀ r ∈ (analyze_results
        [test_scenario (mkScenario 2 "owner" "private" "edit") "ERROR"]).over_permissive,
      r.actual ≠ "ERROR") ∧
    (∀ r ∈ (analyze_results
        [test_scenario (mkScenario 2 "owner" "private" "edit") "ERROR"]).over_restrictive,
      r.actual ≠ "ERROR") :=
  error_results_fail_outside_severity_buckets (mkScenario 2 "owner" "private" "edit")
    [test_scenario (mkScenario 2 "owner" "private" "edit") "ERROR"] (Or.inl rfl)

/-- The role→user-id and visibility→file-id bindings created once by
`setup_test_fixtures` (test_framework.py lines 50-122); the concrete ids are
UUIDs assigned by the subject, so they are abstract here. -/
structure Fixtures where
  users : String → String
  files : String → String

/-- The argument tuple of an `api.share_file` call. -/
structure ShareCall where
  file_id : String
  user_id : String
  target_user_id : String
  permission_type : String
deriving DecidableEq, Repr

/-- The share dispatch of the oracle: `test_scenario` resolves
`user_id = users[audience]` and `file_id = files[visibility]` (test_framework.py
lines 178-179), and the share branch of `execute_api_action` (lines 146-149)
calls `share_file(file_id, user_id, users['external'], 'read')`. -/
def share_dispatch (fx : Fixtures) (audience visibility : String) : ShareCall :=
  { file_id := fx.files visibility
    user_id := fx.users audience
    target_user_id := fx.users "external"
    permission_type := "read" }

/-- A concrete fixture binding of the shape `setup_test_fixtures` creates:
four distinct user ids, one per role, and four distinct file ids, one per
visibility. -/
def sampleFixtures : Fixtures where
  users := fun r =>
    if r = "owner" then "user-owner"
    else if r = "collaborator" then "user-collab"
    else if r = "org_member" then "user-org"
    else if r = "external" then "user-ext"
    else "user-unknown"
  files := fun v =>
    if v = "private" then "file-private"
    else if v = "shared" then "file-shared"
    else if v = "org_public" then "file-org"
    else if v = "public" then "file-public"
    else "file-unknown"

/-- Claim C6, counterexample: for a share scenario whose audience is
`external`, the fixed target `users['external']` coincides with the scenario's
own acting principal — the claimed distinctness fails. -/
theorem share_target_equals_actor_for_external :
    (share_dispatch sampleFixtures "external" "public").target_user_id =
      (share_dispatch sampleFixtures "external" "public").user_id := by
  rfl

/-- Claim C6, amended: every share dispatch grants `read` permission to the
fixed auxiliary principal bound to the `external` role; that target is distinct
from the acting principal exactly when the fixture binds the scenario's
audience to a different id than the external role — true for the other three
roles under the fixture's distinct ids, false for audience `external`, where
target and actor coincide. -/
theorem share_grants_read_to_fixed_external (fx : Fixtures)
    (audience visibility : String)
    (hne : fx.users audience ≠ fx.users "external") :
    (share_dispatch fx audience visibility).target_user_id = fx.users "external" ∧
    (share_dispatch fx audience visibility).permission_type = "read" ∧
    (share_dispatch fx audience visibility).target_user_id ≠
      (share_dispatch fx audience visibility).user_id ∧
    (share_dispatch fx "external" visibility).target_user_id =
      (share_dispatch fx "external" visibility).user_id :=
  ⟨rfl, rfl, fun h => hne h.symm, rfl⟩

/-- Claim C6, witness: the amended theorem at the concrete fixture for an
owner-audience share scenario. -/
theorem share_grants_read_to_fixed_external_witness :
    (share_dispatch sampleFixtures "owner" "private").target_user_id =
      sampleFixtures.users "external" ∧
    (share_dispatch sampleFixtures "owner" "private").permission_type = "read" ∧
    (share_dispatch sampleFixtures "owner" "private").target_user_id ≠
      (share_dispatch sampleFixtures "owner" "private").user_id ∧
    (share_dispatch sampleFixtures "external" "private").target_user_id =
      (share_dispatch sampleFixtures "external" "private").user_id :=
  share_grants_read_to_fixed_external sampleFixtures "owner" "private" (by decide)

end TestFramework

namespace FileShareApi

/-- A `User` record (file_sharing_api.py lines 14-24); the creation timestamp
is omitted. -/
structure UserRec where
  email : String
  organization_id : String
  name : String
deriving DecidableEq, Repr

/-- A `File` record (file_sharing_api.py lines 27-40); timestamps omitted. -/
structure FileRec where
  owner_id : String
  name : String
  visibility : String
  content : String
deriving DecidableEq, Repr

/-- A `Permission` record (file_sharing_api.py lines 43-52); the file and user
ids live in the key of the permissions map, the grant timestamp is omitted. -/
structure PermRec where
  permission_type : String
deriving DecidableEq, Repr

/-- The mutable state of `FileShareAPI` (file_sharing_api.py lines 83-87):
`users`, `files` and `permissions` as insertion-ordered maps.  The
`organizations` map is written only by `create_user` and read by no operation
modelled here, so it is omitted. -/
structure ApiState where
  users : List (String × UserRec)
  files : List (String × FileRec)
  permissions : List ((String × String) × PermRec)
deriving DecidableEq, Repr

/-- `FileShareAPI._check_authorization` (file_sharing_api.py lines 270-334),
including its intentional bugs (public-edit, org_public-delete,
collaborator-share).  The body only reads `self.users`, `self.files` and
`self.permissions`; it performs no write.  `none` stands for the `KeyError`
Python raises when an `org_public` file's owner id is not a known user;
every other path returns `some` of the boolean the source returns. -/
def check_auth (st : ApiState) (file_id user_id action : String) : Option Bool :=
  match st.files.lookup file_id, st.users.lookup user_id with
  | some file, some user =>
    if file.owner_id = user_id then some true
    else if file.visibility = "public" then
      if action = "read" then some true
      else if action = "edit" then some true
      else some false
    else if file.visibility = "org_public" then
      match st.users.lookup file.owner_id with
      | none => none
      | some owner =>
        let same_org := user.organization_id == owner.organization_id
        if same_org = true ∧ action = "read" then some true
        else if same_org = true ∧ action = "delete" then some true
        else some false
    else
      match st.permissions.lookup (file_id, user_id) with
      | some perm =>
        if action = "read" then some true
        else if action = "edit" then
          some (perm.permission_type == "edit" || perm.permission_type == "read")
        else if action = "share" then some true
        else if action = "delete" then some false
        else some false
      | none => some false
  | _, _ => some false

/-- `FileShareAPI.get_file` (file_sharing_api.py lines 135-160): returns a
status code and never writes the state; `none` propagates a `KeyError` from
the authorization check (surfacing as an HTTP 500). -/
def get_file (st : ApiState) (file_id user_id : String) : Option Nat :=
  if (st.files.lookup file_id).isNone then some 404
  else match check_auth st file_id user_id "read" with
    | none => none
    | some false => some 403
    | some true => some 200

/-- `FileShareAPI.update_file` (file_sharing_api.py lines 162-183): on ALLOW
replaces the file's content; otherwise the state is unchanged. -/
def update_file (st : ApiState) (file_id user_id content : String) :
    ApiState × Option Nat :=
  if (st.files.lookup file_id).isNone then (st, some 404)
  else match check_auth st file_id user_id "edit" with
    | none => (st, none)
    | some false => (st, some 403)
    | some true =>
      ({ st with
          files := st.files.map fun kv =>
            if kv.1 == file_id then (kv.1, { kv.2 with content := content }) else kv },
        some 200)

/-- `FileShareAPI.delete_file` (file_sharing_api.py lines 185-207): on ALLOW
removes the file and every permission keyed by it. -/
def delete_file (st : ApiState) (file_id user_id : String) :
    ApiState × Option Nat :=
  if (st.files.lookup file_id).isNone then (st, some 404)
  else match check_auth st file_id user_id "delete" with
    | none => (st, none)
    | some false => (st, some 403)
    | some true =>
      ({ st with
          files := st.files.filter fun kv => !(kv.1 == file_id)
          permissions := st.permissions.filter fun kv => !(kv.1.1 == file_id) },
        some 200)

/-- `FileShareAPI.share_file` (file_sharing_api.py lines 211-239): on ALLOW
stores a permission for `(file_id, target_user_id)` — overwriting in place if
the key exists, appending otherwise, as Python dict assignment does. -/
def share_file (st : ApiState)
    (file_id user_id target_user_id permission_type : String) :
    ApiState × Option Nat :=
  if (st.files.lookup file_id).isNone then (st, some 404)
  else if (st.users.lookup target_user_id).isNone then (st, some 404)
  else match check_auth st file_id user_id "share" with
    | none => (st, none)
    | some false => (st, some 403)
    | some true =>
      (if (st.permissions.lookup (file_id, target_user_id)).isSome then
        { st with
            permissions := st.permissions.map fun kv =>
              if kv.1 == (file_id, target_user_id) then
                (kv.1, { permission_type := permission_type })
              else kv }
      else
        { st with
            permissions :=
              st.permissions ++ [((file_id, target_user_id),
                { permission_type := permission_type })] },
        some 200)

/-- The normalization of `execute_api_action` (test_framework.py lines
151-160) applied to the subject's status code: 200/201 → ALLOW, 403 → DENY,
any other status → ERROR; `none` (an unhandled server exception, an HTTP 500
whose body is not the API's JSON) → ERROR. -/
def normalize (code : Option Nat) : String :=
  match code with
  | some c =>
    if c = 200 ∨ c = 201 then "ALLOW" else if c = 403 then "DENY" else "ERROR"
  | none => "ERROR"

/-- The subject operations an oracle step can invoke. -/
inductive SubjectOp where
  | getFileOp
  | updateFileOp
  | deleteFileOp
  | shareFileOp
  | checkAuthorizationOp
deriving DecidableEq, Repr

/-- `execute_api_action` (test_framework.py lines 124-160) run against the
embedded subject: dispatch on the action string, returning the subject state
after the step, the observed decision, and the subject operations invoked.
The delete branch performs only the `/authorize` query
(`ApiClient.check_authorization` → `FileShareAPI._check_authorization`), whose
faults the client folds to `False`, hence DENY. -/
def execute_api_action_subject (st : ApiState) (file_id user_id target_id : String)
    (action : String) : ApiState × String × List SubjectOp :=
  if action = "read" then
    (st, normalize (get_file st file_id user_id), [SubjectOp.getFileOp])
  else if action = "edit" then
    let r := update_file st file_id user_id "Updated content"
    (r.1, normalize r.2, [SubjectOp.updateFileOp])
  else if action = "delete" then
    let allowed :=
      match check_auth st file_id user_id "delete" with
      | some b => b
      | none => false
    (st, if allowed then "ALLOW" else "DENY", [SubjectOp.checkAuthorizationOp])
  else if action = "share" then
    let r := share_file st file_id user_id target_id "read"
    (r.1, normalize r.2, [SubjectOp.shareFileOp])
  else (st, "ERROR", [])

/-- Claim C8: a delete scenario invokes only the non-mutating
`checkAuthorization` query — never the subject's `delete_file` operation — and
the subject's users, files (including their contents) and permissions are
identical before and after the step. -/
theorem delete_action_preserves_subject_state (st : ApiState)
    (file_id user_id target_id : String) :
    (execute_api_action_subject st file_id user_id target_id "delete").1 = st ∧
    (execute_api_action_subject st file_id user_id target_id "delete").1.users =
      st.users ∧
    (execute_api_action_subject st file_id user_id target_id "delete").1.files =
      st.files ∧
    (execute_api_action_subject st file_id user_id target_id "delete").1.permissions =
      st.permissions ∧
    (execute_api_action_subject st file_id user_id target_id "delete").2.2 =
      [SubjectOp.checkAuthorizationOp] ∧
    SubjectOp.deleteFileOp ∉
      (execute_api_action_subject st file_id user_id target_id "delete").2.2 := by
  refine ⟨rfl, rfl, rfl, rfl, rfl, ?_⟩
  show SubjectOp.deleteFileOp ∉ [SubjectOp.checkAuthorizationOp]
  decide

/-- Claim C8, witness: the frame theorem at a concrete subject state. -/
theorem delete_action_preserves_subject_state_witness :
    (execute_api_action_subject ⟨[], [], []⟩ "f1" "u1" "u2" "delete").1 =
      (⟨[], [], []⟩ : ApiState) ∧
    (execute_api_action_subject ⟨[], [], []⟩ "f1" "u1" "u2" "delete").1.users =
      (⟨[], [], []⟩ : ApiState).users ∧
    (execute_api_action_subject ⟨[], [], []⟩ "f1" "u1" "u2" "delete").1.files =
      (⟨[], [], []⟩ : ApiState).files ∧
    (execute_api_action_subject ⟨[], [], []⟩ "f1" "u1" "u2" "delete").1.permissions =
      (⟨[], [], []⟩ : ApiState).permissions ∧
    (execute_api_action_subject ⟨[], [], []⟩ "f1" "u1" "u2" "delete").2.2 =
      [SubjectOp.checkAuthorizationOp] ∧
    SubjectOp.deleteFileOp ∉
      (execute_api_action_subject ⟨[], [], []⟩ "f1" "u1" "u2" "delete").2.2 :=
  delete_action_preserves_subject_state ⟨[], [], []⟩ "f1" "u1" "u2"

end FileShareApi
